import Mathlib

/-!
# gordma / ibverbs : the queue pair

A shallow embedding of `ibverbs/qp.go` and `ibverbs/const.go`.

* The cgo calls (`C.ibv_modify_qp`, `C.ibv_destroy_qp`, `C.ibv_post_send`,
  `C.ibv_post_recv`) leave the Go program; they are modelled as entries appended
  to a call log, answered by a driver function that sees the log so far and the
  call and yields the C return value.
* The enumerators the source reads from `<infiniband/verbs.h>` through cgo are
  not part of the sources; they are the fields of `Verbs`, a parameter of every
  operation.  `verbs_h` holds the values of the libibverbs header.
* Go methods on `*queuePair` become functions on `State` (the queue pair and
  the call log); a nil pointer is `none`, a nil dereference is
  `Outcome.panicked`.
* A cgo call checks its pointer arguments first: Go memory handed to C must not
  hold a pointer into Go memory, or the call panics before it reaches C.  The
  posting methods store `&sge`, the address of a Go variable, in the descriptor
  they pass, so `sg_list` records where its pointer leads (`SgePointer`), and
  the check (`cgoCheckFails`) runs before each `ibv_post_send` and
  `ibv_post_recv`.  The check is a runtime setting (`GODEBUG=cgocheck`, on by
  default), the member `cgocheck` of `Env`.
-/

namespace Ibverbs

/-! ## Machine integers -/

/-- Conversion `C.uint8_t(x)` of a Go `int`. -/
def uint8_t (x : Int) : Nat := (x % 2 ^ 8).toNat

/-- Conversion `C.uint16_t(x)` of an unsigned value. -/
def uint16_t (x : Nat) : Nat := x % 2 ^ 16

/-- Conversion `C.uint32_t(x)` of an unsigned value. -/
def uint32_t (x : Nat) : Nat := x % 2 ^ 32

/-- Conversion `C.uint32_t(x)` of a Go `int`. -/
def uint32_t_of_int (x : Int) : Nat := (x % 2 ^ 32).toNat

/-- Conversion `C.uint64_t(uintptr(p))` of an address. -/
def uint64_t (x : Nat) : Nat := x % 2 ^ 64

/-! ## The cgo namespace `C` -/

/-- Enumerators of `enum ibv_qp_attr_mask`. -/
inductive ibv_qp_attr_mask
  | IBV_QP_STATE
  | IBV_QP_CUR_STATE
  | IBV_QP_EN_SQD_ASYNC_NOTIFY
  | IBV_QP_ACCESS_FLAGS
  | IBV_QP_PKEY_INDEX
  | IBV_QP_PORT
  | IBV_QP_QKEY
  | IBV_QP_AV
  | IBV_QP_PATH_MTU
  | IBV_QP_TIMEOUT
  | IBV_QP_RETRY_CNT
  | IBV_QP_RNR_RETRY
  | IBV_QP_RQ_PSN
  | IBV_QP_MAX_QP_RD_ATOMIC
  | IBV_QP_ALT_PATH
  | IBV_QP_MIN_RNR_TIMER
  | IBV_QP_SQ_PSN
  | IBV_QP_MAX_DEST_RD_ATOMIC
  | IBV_QP_PATH_MIG_STATE
  | IBV_QP_CAP
  | IBV_QP_DEST_QPN
  | IBV_QP_RATE_LIMIT
  deriving DecidableEq, Repr

/-- All enumerators of `enum ibv_qp_attr_mask`, in declaration order. -/
def ibv_qp_attr_mask.all : List ibv_qp_attr_mask :=
  [.IBV_QP_STATE, .IBV_QP_CUR_STATE, .IBV_QP_EN_SQD_ASYNC_NOTIFY, .IBV_QP_ACCESS_FLAGS,
   .IBV_QP_PKEY_INDEX, .IBV_QP_PORT, .IBV_QP_QKEY, .IBV_QP_AV, .IBV_QP_PATH_MTU,
   .IBV_QP_TIMEOUT, .IBV_QP_RETRY_CNT, .IBV_QP_RNR_RETRY, .IBV_QP_RQ_PSN,
   .IBV_QP_MAX_QP_RD_ATOMIC, .IBV_QP_ALT_PATH, .IBV_QP_MIN_RNR_TIMER, .IBV_QP_SQ_PSN,
   .IBV_QP_MAX_DEST_RD_ATOMIC, .IBV_QP_PATH_MIG_STATE, .IBV_QP_CAP, .IBV_QP_DEST_QPN,
   .IBV_QP_RATE_LIMIT]

/-- Values of the C enumerators the source reads through cgo.  The header
`<infiniband/verbs.h>` is not among the sources, so the values are a parameter. -/
structure Verbs where
  IBV_QPS_INIT : Nat
  IBV_QPS_RTR : Nat
  IBV_QPS_RTS : Nat
  IBV_MTU_2048 : Nat
  qp_attr_mask : ibv_qp_attr_mask → Nat
  IBV_ACCESS_LOCAL_WRITE : Nat
  IBV_ACCESS_REMOTE_WRITE : Nat
  IBV_ACCESS_REMOTE_READ : Nat
  IBV_ACCESS_REMOTE_ATOMIC : Nat
  IBV_QPT_RC : Nat
  IBV_WR_SEND : Nat
  IBV_WR_SEND_WITH_IMM : Nat
  IBV_WR_RDMA_WRITE : Nat
  IBV_WR_RDMA_READ : Nat
  IBV_SEND_SIGNALED : Nat
  IBV_SEND_INLINE : Nat

/-- The value of `C.IBV_QP_x` for an enumerator `x` of `enum ibv_qp_attr_mask`. -/
abbrev Verbs.mask (C : Verbs) (m : ibv_qp_attr_mask) : Nat := C.qp_attr_mask m

/-- Bit position of each `enum ibv_qp_attr_mask` enumerator in libibverbs. -/
def ibv_qp_attr_mask.shift : ibv_qp_attr_mask → Nat
  | .IBV_QP_STATE => 0
  | .IBV_QP_CUR_STATE => 1
  | .IBV_QP_EN_SQD_ASYNC_NOTIFY => 2
  | .IBV_QP_ACCESS_FLAGS => 3
  | .IBV_QP_PKEY_INDEX => 4
  | .IBV_QP_PORT => 5
  | .IBV_QP_QKEY => 6
  | .IBV_QP_AV => 7
  | .IBV_QP_PATH_MTU => 8
  | .IBV_QP_TIMEOUT => 9
  | .IBV_QP_RETRY_CNT => 10
  | .IBV_QP_RNR_RETRY => 11
  | .IBV_QP_RQ_PSN => 12
  | .IBV_QP_MAX_QP_RD_ATOMIC => 13
  | .IBV_QP_ALT_PATH => 14
  | .IBV_QP_MIN_RNR_TIMER => 15
  | .IBV_QP_SQ_PSN => 16
  | .IBV_QP_MAX_DEST_RD_ATOMIC => 17
  | .IBV_QP_PATH_MIG_STATE => 18
  | .IBV_QP_CAP => 19
  | .IBV_QP_DEST_QPN => 20
  | .IBV_QP_RATE_LIMIT => 25

/-- The enumerator values of the libibverbs header `<infiniband/verbs.h>`. -/
def verbs_h : Verbs where
  IBV_QPS_INIT := 1
  IBV_QPS_RTR := 2
  IBV_QPS_RTS := 3
  IBV_MTU_2048 := 4
  qp_attr_mask := fun m => 1 <<< m.shift
  IBV_ACCESS_LOCAL_WRITE := 1
  IBV_ACCESS_REMOTE_WRITE := 2
  IBV_ACCESS_REMOTE_READ := 4
  IBV_ACCESS_REMOTE_ATOMIC := 8
  IBV_QPT_RC := 2
  IBV_WR_SEND := 2
  IBV_WR_SEND_WITH_IMM := 3
  IBV_WR_RDMA_WRITE := 0
  IBV_WR_RDMA_READ := 4
  IBV_SEND_SIGNALED := 2
  IBV_SEND_INLINE := 8

/-- A flag word `w` has flag `f` set. -/
def hasFlag (w f : Nat) : Prop := w &&& f ≠ 0

instance (w f : Nat) : Decidable (hasFlag w f) := by
  unfold hasFlag; infer_instance

/-- The flag enumerators are usable as flags: the `ibv_qp_attr_mask` enumerators
are non-zero and pairwise disjoint, and so are the two send flags. -/
def Verbs.WellFormed (C : Verbs) : Prop :=
  (∀ m ∈ ibv_qp_attr_mask.all, C.mask m ≠ 0) ∧
  ibv_qp_attr_mask.all.Pairwise (fun a b => C.mask a &&& C.mask b = 0) ∧
  C.IBV_SEND_SIGNALED ≠ 0 ∧ C.IBV_SEND_INLINE ≠ 0 ∧
  C.IBV_SEND_SIGNALED &&& C.IBV_SEND_INLINE = 0

/-! ## Errors -/

/-- Go `error` values built in this package. -/
inductive GoError
  | New (msg : String)
  | errno (name : String) (code : Int)
  deriving DecidableEq, Repr

/-- The package variable `QPClosedErr` of `const.go`. -/
def QPClosedErr : GoError := GoError.New "qp already closed"

/-- Modelled from the spec: `common.NewErrorOrNil` of package `gordma/common` is not
among the sources.  A rejected driver call surfaces as a failure "carrying the
underlying driver error code"; a return value of 0 is no error. -/
def NewErrorOrNil (name : String) (errno : Int) : Option GoError :=
  if errno = 0 then none else some (GoError.errno name errno)

/-- How a call of a Go method ends. -/
inductive Outcome
  | returned (err : Option GoError)
  | panicked
  deriving DecidableEq, Repr

/-! ## Data model -/

/-- The C object behind a `*C.struct_ibv_qp`: its identity and its `qp_num`. -/
structure ibv_qp where
  handle : Nat
  qp_num : Nat
  deriving DecidableEq, Repr

/-- The Go struct `queuePair`.  A nil `qp` pointer is `none`. -/
structure queuePair where
  psn : Nat
  port : Int
  qp : Option ibv_qp
  cq : Nat
  deriving DecidableEq, Repr

/-- The member `ah_attr` of `struct ibv_qp_attr`, with the members the source assigns. -/
structure ibv_ah_attr where
  is_global : Nat
  dgid : Nat
  sl : Nat
  src_path_bits : Nat
  port_num : Nat
  deriving DecidableEq, Repr

/-- The members of `struct ibv_qp_attr` the source assigns. -/
structure ibv_qp_attr where
  qp_state : Nat
  pkey_index : Nat
  port_num : Nat
  qp_access_flags : Nat
  path_mtu : Nat
  dest_qp_num : Nat
  rq_psn : Nat
  max_dest_rd_atomic : Nat
  min_rnr_timer : Nat
  ah_attr : ibv_ah_attr
  timeout : Nat
  retry_cnt : Nat
  rnr_retry : Nat
  sq_psn : Nat
  max_rd_atomic : Nat
  deriving DecidableEq, Repr

/-- The composite literal `C.struct_ibv_qp_attr{}`: every member zero. -/
def ibv_qp_attr.zero : ibv_qp_attr :=
  { qp_state := 0, pkey_index := 0, port_num := 0, qp_access_flags := 0, path_mtu := 0,
    dest_qp_num := 0, rq_psn := 0, max_dest_rd_atomic := 0, min_rnr_timer := 0,
    ah_attr := { is_global := 0, dgid := 0, sl := 0, src_path_bits := 0, port_num := 0 },
    timeout := 0, retry_cnt := 0, rnr_retry := 0, sq_psn := 0, max_rd_atomic := 0 }

/-- The left-hand sides of the assignments `attr.x = v` in `qp.go`. -/
inductive AttrField
  | qp_state
  | pkey_index
  | port_num
  | qp_access_flags
  | path_mtu
  | dest_qp_num
  | rq_psn
  | max_dest_rd_atomic
  | min_rnr_timer
  | ah_attr_is_global
  | ah_attr_dgid
  | ah_attr_sl
  | ah_attr_src_path_bits
  | ah_attr_port_num
  | timeout
  | retry_cnt
  | rnr_retry
  | sq_psn
  | max_rd_atomic
  deriving DecidableEq, Repr

/-- The `ibv_qp_attr_mask` enumerator that names a member of `struct ibv_qp_attr`
to `ibv_modify_qp`; the members of the address vector `ah_attr` are named
together by `IBV_QP_AV`. -/
def AttrField.maskName : AttrField → ibv_qp_attr_mask
  | .qp_state => .IBV_QP_STATE
  | .pkey_index => .IBV_QP_PKEY_INDEX
  | .port_num => .IBV_QP_PORT
  | .qp_access_flags => .IBV_QP_ACCESS_FLAGS
  | .path_mtu => .IBV_QP_PATH_MTU
  | .dest_qp_num => .IBV_QP_DEST_QPN
  | .rq_psn => .IBV_QP_RQ_PSN
  | .max_dest_rd_atomic => .IBV_QP_MAX_DEST_RD_ATOMIC
  | .min_rnr_timer => .IBV_QP_MIN_RNR_TIMER
  | .ah_attr_is_global => .IBV_QP_AV
  | .ah_attr_dgid => .IBV_QP_AV
  | .ah_attr_sl => .IBV_QP_AV
  | .ah_attr_src_path_bits => .IBV_QP_AV
  | .ah_attr_port_num => .IBV_QP_AV
  | .timeout => .IBV_QP_TIMEOUT
  | .retry_cnt => .IBV_QP_RETRY_CNT
  | .rnr_retry => .IBV_QP_RNR_RETRY
  | .sq_psn => .IBV_QP_SQ_PSN
  | .max_rd_atomic => .IBV_QP_MAX_QP_RD_ATOMIC

/-- One assignment `attr.f = v`. -/
def ibv_qp_attr.assign (a : ibv_qp_attr) (fv : AttrField × Nat) : ibv_qp_attr :=
  match fv.1 with
  | .qp_state => { a with qp_state := fv.2 }
  | .pkey_index => { a with pkey_index := fv.2 }
  | .port_num => { a with port_num := fv.2 }
  | .qp_access_flags => { a with qp_access_flags := fv.2 }
  | .path_mtu => { a with path_mtu := fv.2 }
  | .dest_qp_num => { a with dest_qp_num := fv.2 }
  | .rq_psn => { a with rq_psn := fv.2 }
  | .max_dest_rd_atomic => { a with max_dest_rd_atomic := fv.2 }
  | .min_rnr_timer => { a with min_rnr_timer := fv.2 }
  | .ah_attr_is_global => { a with ah_attr := { a.ah_attr with is_global := fv.2 } }
  | .ah_attr_dgid => { a with ah_attr := { a.ah_attr with dgid := fv.2 } }
  | .ah_attr_sl => { a with ah_attr := { a.ah_attr with sl := fv.2 } }
  | .ah_attr_src_path_bits => { a with ah_attr := { a.ah_attr with src_path_bits := fv.2 } }
  | .ah_attr_port_num => { a with ah_attr := { a.ah_attr with port_num := fv.2 } }
  | .timeout => { a with timeout := fv.2 }
  | .retry_cnt => { a with retry_cnt := fv.2 }
  | .rnr_retry => { a with rnr_retry := fv.2 }
  | .sq_psn => { a with sq_psn := fv.2 }
  | .max_rd_atomic => { a with max_rd_atomic := fv.2 }

/-- The record that results from `attr := C.struct_ibv_qp_attr{}` followed by the
assignments of `body`, in order. -/
def ibv_qp_attr.build (body : List (AttrField × Nat)) : ibv_qp_attr :=
  body.foldl ibv_qp_attr.assign ibv_qp_attr.zero

/-- The C struct `ibv_sge`. -/
structure ibv_sge where
  addr : Nat
  length : Nat
  lkey : Nat
  deriving DecidableEq, Repr

/-- The declaration `var sge C.struct_ibv_sge`. -/
def ibv_sge.zero : ibv_sge := { addr := 0, length := 0, lkey := 0 }

/-- A value of the pointer member `sg_list`: nil, the address of a Go variable
(`&sge` in the source) or an address in C memory, with the element it refers to. -/
inductive SgePointer
  | nil
  | go (sge : ibv_sge)
  | c (sge : ibv_sge)
  deriving DecidableEq, Repr

/-- The pointer leads into Go memory. -/
def SgePointer.isGo : SgePointer → Bool
  | .go _ => true
  | _ => false

/-- The element a non-nil `sg_list` refers to. -/
def SgePointer.elem : SgePointer → Option ibv_sge
  | .nil => none
  | .go e => some e
  | .c e => some e

/-- The members of `struct ibv_send_wr` the source assigns. -/
structure ibv_send_wr where
  wr_id : Nat
  sg_list : SgePointer
  num_sge : Nat
  opcode : Nat
  send_flags : Nat
  imm_data : Nat
  remoteAddr : Nat
  rkey : Nat
  deriving DecidableEq, Repr

/-- The members of `struct ibv_recv_wr` the source assigns. -/
structure ibv_recv_wr where
  wr_id : Nat
  sg_list : SgePointer
  num_sge : Nat
  deriving DecidableEq, Repr

/-- Modelled from the spec: the registered region behind `wr.mr.mr`
(`struct ibv_mr`, declared in the C header): "{address, length, local key,
remote key}".  `addr` is a pointer and `length` a `size_t`, both 64 bits;
the keys are 32 bits. -/
structure ibv_mr where
  addr : Nat
  length : Nat
  lkey : Nat
  rkey : Nat
  deriving DecidableEq, Repr

/-- A region as the C library hands it out: every member within its C type. -/
def ibv_mr.InRange (m : ibv_mr) : Prop :=
  m.addr < 2 ^ 64 ∧ m.length < 2 ^ 64 ∧ m.lkey < 2 ^ 32 ∧ m.rkey < 2 ^ 32

instance (m : ibv_mr) : Decidable m.InRange := by
  unfold ibv_mr.InRange; infer_instance

/-- Modelled from the spec: the Go struct `memoryRegion` is declared outside the
sources; the source reads its member `mr`, the registered region. -/
structure memoryRegion where
  mr : ibv_mr
  deriving DecidableEq, Repr

/-- Modelled from the spec: the Go struct `sendWorkRequest` is declared outside the
sources; the source reads `mr` (nil when no region is attached) and `sendWr`. -/
structure sendWorkRequest where
  mr : Option memoryRegion
  sendWr : ibv_send_wr
  deriving DecidableEq, Repr

/-- Modelled from the spec: the Go struct `receiveWorkRequest` is declared outside
the sources; the source reads `mr` and `recvWr`. -/
structure receiveWorkRequest where
  mr : Option memoryRegion
  recvWr : ibv_recv_wr
  deriving DecidableEq, Repr

/-! ## The driver -/

/-- A call that leaves the Go program, with the arguments it carries. -/
inductive DriverCall
  | ibv_modify_qp (qp : Option ibv_qp) (attr : ibv_qp_attr) (mask : Nat)
  | ibv_destroy_qp (qp : Option ibv_qp)
  | ibv_post_send (qp : Option ibv_qp) (wr : ibv_send_wr)
  | ibv_post_recv (qp : Option ibv_qp) (wr : ibv_recv_wr)
  deriving DecidableEq, Repr

/-- What lies outside `qp.go`: the driver, which answers a call with a C return
value and may take the calls made so far into account; the two `createWrId`
methods of the work requests, declared outside the sources; and the runtime
setting `GODEBUG=cgocheck`, which is on unless the program is started with
`cgocheck=0`. -/
structure Env where
  driver : List DriverCall → DriverCall → Int
  sendWrId : sendWorkRequest → Nat
  recvWrId : receiveWorkRequest → Nat
  cgocheck : Bool

/-- The cgo pointer check on the argument `&wr.sendWr` (resp. `&wr.recvWr`) of a
posting call: with the check on, the call panics when the descriptor, which is Go
memory, holds a pointer into Go memory in `sg_list`.  `sg_list` is the only pointer
member the source writes; the other pointer member of the descriptor, `next`, is
never assigned in the source and is taken not to lead into Go memory.  The other
arguments pass the check: `q.qp` is C memory and `&bad` refers to a nil pointer. -/
def cgoCheckFails (E : Env) (sg_list : SgePointer) : Bool :=
  E.cgocheck && sg_list.isGo

/-- A queue pair together with the driver calls made so far. -/
structure State where
  q : queuePair
  calls : List DriverCall
  deriving DecidableEq, Repr

/-! ## Creation (`NewQueuePair`) -/

/-- Modelled from the spec: the Go struct `rdmaContext` is declared outside the
sources; it "exposes a bound port number", which the source reads as `Port`. -/
structure rdmaContext where
  Port : Int
  deriving DecidableEq, Repr

/-- Modelled from the spec: the Go struct `protectDomain` is declared outside the
sources; it "exposes an opaque handle", which the source reads as `pd`. -/
structure protectDomain where
  pd : Nat
  deriving DecidableEq, Repr

/-- Modelled from the spec: the Go struct `completionQueue` is declared outside the
sources; it "exposes its handle and configured capacity": the source reads the
handle `cq` and calls `Cqe()`, whose result is the member `cqe` here. -/
structure completionQueue where
  cq : Nat
  cqe : Int
  deriving DecidableEq, Repr

/-- The member `cap` of `struct ibv_qp_init_attr`. -/
structure ibv_qp_cap where
  max_send_wr : Nat
  max_recv_wr : Nat
  max_send_sge : Nat
  max_recv_sge : Nat
  deriving DecidableEq, Repr

/-- The members of `struct ibv_qp_init_attr` the source assigns. -/
structure ibv_qp_init_attr where
  send_cq : Nat
  recv_cq : Nat
  cap : ibv_qp_cap
  qp_type : Nat
  sq_sig_all : Nat
  deriving DecidableEq, Repr

/-- The function `NewQueuePair`.  `ibv_create_qp` is the driver call, which yields
the new handle (or nil) and the Go error cgo derives from `errno`; `Uint32` is the
value drawn from the random source. -/
def NewQueuePair (C : Verbs)
    (ibv_create_qp : Nat → ibv_qp_init_attr → Option ibv_qp × Option GoError)
    (Uint32 : Nat)
    (ctx : rdmaContext) (pd : protectDomain) (cq : completionQueue) :
    Option queuePair × Option GoError :=
  let cqe := cq.cqe
  let initAttr : ibv_qp_init_attr :=
    { send_cq := cq.cq
      recv_cq := cq.cq
      cap := { max_send_wr := uint32_t_of_int cqe
               max_recv_wr := uint32_t_of_int cqe
               max_send_sge := 1
               max_recv_sge := 1 }
      qp_type := C.IBV_QPT_RC
      sq_sig_all := 1 }
  match ibv_create_qp pd.pd initAttr with
  | (none, some err) => (none, some err)
  | (none, none) => (none, some (GoError.New "qp: unknown error"))
  | (some qpC, _) =>
    let psn := Uint32 &&& 0xffffff
    (some { psn := psn, port := ctx.Port, qp := some qpC, cq := cq.cq }, none)

/-! ## Accessors and teardown -/

/-- The method `Psn`. -/
def Psn (q : queuePair) : Nat := q.psn

/-- The method `Qpn`; `none` is the nil dereference of a closed queue pair. -/
def Qpn (q : queuePair) : Option Nat :=
  match q.qp with
  | none => none
  | some h => some (uint32_t h.qp_num)

/-- The method `Close`. -/
def Close (E : Env) (s : State) : Outcome × State :=
  match s.q.qp with
  | none => (Outcome.returned none, s)
  | some h =>
    let call := DriverCall.ibv_destroy_qp (some h)
    let errno := E.driver s.calls call
    if errno ≠ 0 then
      (Outcome.returned (some (GoError.New "ibv_destroy_qp failed")),
        { s with calls := s.calls ++ [call] })
    else
      (Outcome.returned none, { q := { s.q with qp := none }, calls := s.calls ++ [call] })

/-! ## The handshake -/

/-- The method `modify`. -/
def modify (E : Env) (s : State) (attr : ibv_qp_attr) (mask : Nat) : Outcome × State :=
  let call := DriverCall.ibv_modify_qp s.q.qp attr mask
  let errno := E.driver s.calls call
  (Outcome.returned (NewErrorOrNil "ibv_modify_qp" errno), { s with calls := s.calls ++ [call] })

/-- The assignments to `attr` in `Init`, in source order. -/
def InitBody (C : Verbs) (q : queuePair) : List (AttrField × Nat) :=
  [ (.qp_state, C.IBV_QPS_INIT),
    (.pkey_index, 0),
    (.port_num, uint8_t q.port),
    (.qp_access_flags,
      C.IBV_ACCESS_LOCAL_WRITE ||| C.IBV_ACCESS_REMOTE_READ ||| C.IBV_ACCESS_REMOTE_WRITE) ]

/-- The value of `mask` in `Init`. -/
def InitMask (C : Verbs) : Nat :=
  C.mask .IBV_QP_STATE ||| C.mask .IBV_QP_PKEY_INDEX ||| C.mask .IBV_QP_PORT |||
    C.mask .IBV_QP_ACCESS_FLAGS

/-- The method `Init`. -/
def Init (C : Verbs) (E : Env) (s : State) : Outcome × State :=
  modify E s (ibv_qp_attr.build (InitBody C s.q)) (InitMask C)

/-- The assignments to `attr` in `Ready2Receive`, in source order.  The comment above
the method says that the send and the receive configuration are both set up here;
the body assigns the receive side and the address vector only, and the send side
(`timeout`, `retry_cnt`, `rnr_retry`, `sq_psn`, `max_rd_atomic`) is assigned in
`Ready2Send`. -/
def Ready2ReceiveBody (C : Verbs) (q : queuePair) (destGid destQpn destPsn : Nat) :
    List (AttrField × Nat) :=
  [ (.qp_state, C.IBV_QPS_RTR),
    (.path_mtu, C.IBV_MTU_2048),
    (.dest_qp_num, uint32_t destQpn),
    (.rq_psn, uint32_t destPsn),
    (.max_dest_rd_atomic, 1),
    (.min_rnr_timer, 26),
    (.ah_attr_is_global, 0),
    (.ah_attr_dgid, uint16_t destGid),
    (.ah_attr_sl, 0),
    (.ah_attr_src_path_bits, 0),
    (.ah_attr_port_num, uint8_t q.port) ]

/-- The value of `mask` in `Ready2Receive`. -/
def Ready2ReceiveMask (C : Verbs) : Nat :=
  C.mask .IBV_QP_STATE ||| C.mask .IBV_QP_AV ||| C.mask .IBV_QP_PATH_MTU |||
    C.mask .IBV_QP_DEST_QPN ||| C.mask .IBV_QP_RQ_PSN ||| C.mask .IBV_QP_MAX_DEST_RD_ATOMIC |||
    C.mask .IBV_QP_MIN_RNR_TIMER

/-- The method `Ready2Receive`. -/
def Ready2Receive (C : Verbs) (E : Env) (s : State) (destGid destQpn destPsn : Nat) :
    Outcome × State :=
  modify E s (ibv_qp_attr.build (Ready2ReceiveBody C s.q destGid destQpn destPsn))
    (Ready2ReceiveMask C)

/-- The assignments to `attr` in `Ready2Send`, in source order. -/
def Ready2SendBody (C : Verbs) (q : queuePair) : List (AttrField × Nat) :=
  [ (.qp_state, C.IBV_QPS_RTS),
    (.timeout, 14),
    (.retry_cnt, 6),
    (.rnr_retry, 6),
    (.sq_psn, uint32_t q.psn),
    (.max_rd_atomic, 1) ]

/-- The value of `mask` in `Ready2Send`. -/
def Ready2SendMask (C : Verbs) : Nat :=
  C.mask .IBV_QP_STATE ||| C.mask .IBV_QP_TIMEOUT ||| C.mask .IBV_QP_RETRY_CNT |||
    C.mask .IBV_QP_RNR_RETRY ||| C.mask .IBV_QP_SQ_PSN ||| C.mask .IBV_QP_MAX_QP_RD_ATOMIC

/-- The method `Ready2Send`. -/
def Ready2Send (C : Verbs) (E : Env) (s : State) : Outcome × State :=
  modify E s (ibv_qp_attr.build (Ready2SendBody C s.q)) (Ready2SendMask C)

/-! ## Posting work requests -/

/-- The scatter/gather element the posting methods fill from a region:
`sge.addr`, `sge.length` and `sge.lkey` as assigned in the source. -/
def sgeOf (m : memoryRegion) : ibv_sge :=
  { addr := uint64_t m.mr.addr, length := uint32_t m.mr.length, lkey := m.mr.lkey }

/-- The method `PostSendImm`. -/
def PostSendImm (C : Verbs) (E : Env) (s : State) (wr : sendWorkRequest) (imm : Nat) :
    Outcome × State × sendWorkRequest :=
  let wr1 : sendWorkRequest :=
    if imm > 0 then
      { wr with sendWr := { wr.sendWr with
          opcode := C.IBV_WR_SEND_WITH_IMM
          send_flags := C.IBV_SEND_INLINE
          imm_data := uint32_t imm } }
    else
      { wr with sendWr := { wr.sendWr with
          opcode := C.IBV_WR_SEND
          send_flags := C.IBV_SEND_SIGNALED } }
  let wr2 : sendWorkRequest :=
    match wr1.mr with
    | some m =>
      { wr1 with sendWr := { wr1.sendWr with sg_list := SgePointer.go (sgeOf m), num_sge := 1 } }
    | none => { wr1 with sendWr := { wr1.sendWr with send_flags := C.IBV_SEND_INLINE } }
  let wr3 : sendWorkRequest := { wr2 with sendWr := { wr2.sendWr with wr_id := E.sendWrId wr2 } }
  if cgoCheckFails E wr3.sendWr.sg_list then (Outcome.panicked, s, wr3)
  else
    let call := DriverCall.ibv_post_send s.q.qp wr3.sendWr
    let errno := E.driver s.calls call
    (Outcome.returned (NewErrorOrNil "ibv_post_send" errno),
      { s with calls := s.calls ++ [call] }, wr3)

/-- The method `PostSend`. -/
def PostSend (C : Verbs) (E : Env) (s : State) (wr : sendWorkRequest) :
    Outcome × State × sendWorkRequest :=
  PostSendImm C E s wr 0

/-- The method `PostReceive`. -/
def PostReceive (E : Env) (s : State) (wr : receiveWorkRequest) :
    Outcome × State × receiveWorkRequest :=
  match s.q.qp with
  | none => (Outcome.returned (some QPClosedErr), s, wr)
  | some _ =>
    let wr1 : receiveWorkRequest :=
      { wr with recvWr := { wr.recvWr with sg_list := SgePointer.go ibv_sge.zero, num_sge := 1 } }
    match wr1.mr with
    | none => (Outcome.panicked, s, wr1)
    | some m =>
      let wr2 : receiveWorkRequest :=
        { wr1 with recvWr := { wr1.recvWr with sg_list := SgePointer.go (sgeOf m) } }
      let wr3 : receiveWorkRequest :=
        { wr2 with recvWr := { wr2.recvWr with wr_id := E.recvWrId wr2 } }
      if cgoCheckFails E wr3.recvWr.sg_list then (Outcome.panicked, s, wr3)
      else
        let call := DriverCall.ibv_post_recv s.q.qp wr3.recvWr
        let errno := E.driver s.calls call
        (Outcome.returned (NewErrorOrNil "ibv_post_recv" errno),
          { s with calls := s.calls ++ [call] }, wr3)

/-- The method `PostWriteImm`.  The branches of `if imm > 0` are both empty. -/
def PostWriteImm (C : Verbs) (E : Env) (s : State) (wr : sendWorkRequest)
    (remoteAddr rkey imm : Nat) : Outcome × State × sendWorkRequest :=
  match s.q.qp with
  | none => (Outcome.returned (some QPClosedErr), s, wr)
  | some _ =>
    let _branch : Unit := if imm > 0 then () else ()
    let wr1 : sendWorkRequest :=
      { wr with sendWr := { wr.sendWr with
          opcode := C.IBV_WR_RDMA_WRITE
          send_flags := C.IBV_SEND_SIGNALED
          sg_list := SgePointer.go ibv_sge.zero
          num_sge := 1 } }
    match wr1.mr with
    | none => (Outcome.panicked, s, wr1)
    | some m =>
      let wr2 : sendWorkRequest :=
        { wr1 with sendWr := { wr1.sendWr with
            sg_list := SgePointer.go (sgeOf m)
            remoteAddr := remoteAddr
            rkey := rkey } }
      let wr3 : sendWorkRequest :=
        { wr2 with sendWr := { wr2.sendWr with wr_id := E.sendWrId wr2 } }
      if cgoCheckFails E wr3.sendWr.sg_list then (Outcome.panicked, s, wr3)
      else
        let call := DriverCall.ibv_post_send s.q.qp wr3.sendWr
        let errno := E.driver s.calls call
        (Outcome.returned (NewErrorOrNil "[PostWrite]ibv_post_send" errno),
          { s with calls := s.calls ++ [call] }, wr3)

/-- The method `PostWrite`. -/
def PostWrite (C : Verbs) (E : Env) (s : State) (wr : sendWorkRequest)
    (remoteAddr rkey : Nat) : Outcome × State × sendWorkRequest :=
  PostWriteImm C E s wr remoteAddr rkey 0

/-- The method `PostRead`. -/
def PostRead (C : Verbs) (E : Env) (s : State) (wr : sendWorkRequest)
    (remoteAddr rkey : Nat) : Outcome × State × sendWorkRequest :=
  let wr1 : sendWorkRequest :=
    { wr with sendWr := { wr.sendWr with
        opcode := C.IBV_WR_RDMA_READ
        send_flags := C.IBV_SEND_SIGNALED
        sg_list := SgePointer.go ibv_sge.zero
        num_sge := 1 } }
  match wr1.mr with
  | none => (Outcome.panicked, s, wr1)
  | some m =>
    let wr2 : sendWorkRequest :=
      { wr1 with sendWr := { wr1.sendWr with
          sg_list := SgePointer.go (sgeOf m)
          remoteAddr := remoteAddr
          rkey := rkey } }
    let wr3 : sendWorkRequest :=
      { wr2 with sendWr := { wr2.sendWr with wr_id := E.sendWrId wr2 } }
    if cgoCheckFails E wr3.sendWr.sg_list then (Outcome.panicked, s, wr3)
    else
      let call := DriverCall.ibv_post_send s.q.qp wr3.sendWr
      let errno := E.driver s.calls call
      (Outcome.returned (NewErrorOrNil "[PostWrite]ibv_post_send" errno),
        { s with calls := s.calls ++ [call] }, wr3)

/-! ## Sequences of operations -/

/-- A call of one of the methods of `*queuePair`, with its arguments. -/
inductive Op
  | Psn
  | Qpn
  | Close
  | Init
  | Ready2Receive (destGid destQpn destPsn : Nat)
  | Ready2Send
  | PostSend (wr : sendWorkRequest)
  | PostSendImm (wr : sendWorkRequest) (imm : Nat)
  | PostReceive (wr : receiveWorkRequest)
  | PostWrite (wr : sendWorkRequest) (remoteAddr rkey : Nat)
  | PostWriteImm (wr : sendWorkRequest) (remoteAddr rkey imm : Nat)
  | PostRead (wr : sendWorkRequest) (remoteAddr rkey : Nat)
  deriving DecidableEq, Repr

/-- One method call: how it ends and the state it leaves. -/
def step (C : Verbs) (E : Env) (s : State) : Op → Outcome × State
  | .Psn => (Outcome.returned none, s)
  | .Qpn => (match Qpn s.q with
      | none => Outcome.panicked
      | some _ => Outcome.returned none, s)
  | .Close => Close E s
  | .Init => Init C E s
  | .Ready2Receive g n p => Ready2Receive C E s g n p
  | .Ready2Send => Ready2Send C E s
  | .PostSend wr => let r := PostSend C E s wr; (r.1, r.2.1)
  | .PostSendImm wr imm => let r := PostSendImm C E s wr imm; (r.1, r.2.1)
  | .PostReceive wr => let r := PostReceive E s wr; (r.1, r.2.1)
  | .PostWrite wr a k => let r := PostWrite C E s wr a k; (r.1, r.2.1)
  | .PostWriteImm wr a k imm => let r := PostWriteImm C E s wr a k imm; (r.1, r.2.1)
  | .PostRead wr a k => let r := PostRead C E s wr a k; (r.1, r.2.1)

/-- The state after a sequence of method calls, whatever their outcomes. -/
def run (C : Verbs) (E : Env) (s : State) (ops : List Op) : State :=
  ops.foldl (fun st op => (step C E st op).2) s

/-- The outcomes of a sequence of method calls, in order. -/
def outcomes (C : Verbs) (E : Env) (s : State) : List Op → List Outcome
  | [] => []
  | op :: ops => (step C E s op).1 :: outcomes C E (step C E s op).2 ops

/-! ## Concrete inputs -/

/-- A driver that accepts every call, under the default runtime setting. -/
def acceptAll : Env :=
  { driver := fun _ _ => 0, sendWrId := fun _ => 7, recvWrId := fun _ => 9, cgocheck := true }

/-- A driver that rejects every call with `EINVAL`, under the default runtime setting. -/
def rejectAll : Env :=
  { driver := fun _ _ => 22, sendWrId := fun _ => 7, recvWrId := fun _ => 9, cgocheck := true }

/-- A driver that accepts every call, in a program started with `GODEBUG=cgocheck=0`. -/
def unchecked : Env :=
  { driver := fun _ _ => 0, sendWrId := fun _ => 7, recvWrId := fun _ => 9, cgocheck := false }

/-- The attribute masks a reliable-connected queue pair must and may carry on a
transition between the states RESET (0), INIT (1), RTR (2) and RTS (3), as the
InfiniBand state table lists them; `none` when the transition is not in the table. -/
def stateTableEntry (cur next : Nat) : Option (List ibv_qp_attr_mask × List ibv_qp_attr_mask) :=
  if cur = 0 ∧ next = 1 then
    some ([.IBV_QP_PKEY_INDEX, .IBV_QP_PORT, .IBV_QP_ACCESS_FLAGS], [])
  else if cur = 1 ∧ next = 1 then
    some ([], [.IBV_QP_PKEY_INDEX, .IBV_QP_PORT, .IBV_QP_ACCESS_FLAGS])
  else if cur = 1 ∧ next = 2 then
    some ([.IBV_QP_AV, .IBV_QP_PATH_MTU, .IBV_QP_DEST_QPN, .IBV_QP_RQ_PSN,
        .IBV_QP_MAX_DEST_RD_ATOMIC, .IBV_QP_MIN_RNR_TIMER],
      [.IBV_QP_ALT_PATH, .IBV_QP_ACCESS_FLAGS, .IBV_QP_PKEY_INDEX])
  else if cur = 2 ∧ next = 3 then
    some ([.IBV_QP_TIMEOUT, .IBV_QP_RETRY_CNT, .IBV_QP_RNR_RETRY, .IBV_QP_SQ_PSN,
        .IBV_QP_MAX_QP_RD_ATOMIC],
      [.IBV_QP_CUR_STATE, .IBV_QP_ALT_PATH, .IBV_QP_ACCESS_FLAGS, .IBV_QP_MIN_RNR_TIMER,
        .IBV_QP_PATH_MIG_STATE])
  else if cur = 3 ∧ next = 3 then
    some ([], [.IBV_QP_CUR_STATE, .IBV_QP_ACCESS_FLAGS, .IBV_QP_ALT_PATH,
      .IBV_QP_PATH_MIG_STATE, .IBV_QP_MIN_RNR_TIMER])
  else none

/-- A device in state `cur` accepts `ibv_modify_qp` with this record and mask: the
mask names the state, the transition is in the table, every required attribute is
named and nothing outside the required and optional ones is. -/
def stateTableAccepts (cur : Nat) (attr : ibv_qp_attr) (mask : Nat) : Bool :=
  match stateTableEntry cur attr.qp_state with
  | none => false
  | some (req, opt) =>
    decide (hasFlag mask (verbs_h.mask .IBV_QP_STATE)) &&
    req.all (fun m => decide (hasFlag mask (verbs_h.mask m))) &&
    ibv_qp_attr_mask.all.all (fun m =>
      !decide (hasFlag mask (verbs_h.mask m)) ||
        decide (m = .IBV_QP_STATE ∨ m ∈ req ∨ m ∈ opt))

/-- The state of the device after the calls of a log: each accepted
`ibv_modify_qp` moves it to the state the record names. -/
def deviceState (log : List DriverCall) : Nat :=
  log.foldl (fun st call =>
    match call with
    | .ibv_modify_qp _ attr mask => if stateTableAccepts st attr mask then attr.qp_state else st
    | _ => st) 0

/-- A driver that answers `ibv_modify_qp` by the state table (0, or `EINVAL`) and
accepts every other call, under the default runtime setting. -/
def stateTable : Env :=
  { driver := fun log call =>
      match call with
      | .ibv_modify_qp _ attr mask =>
        if stateTableAccepts (deviceState log) attr mask then 0 else 22
      | _ => 0
    sendWrId := fun _ => 7
    recvWrId := fun _ => 9
    cgocheck := true }

/-- A queue pair as `NewQueuePair` returns it, on port 1. -/
def qOpen : queuePair :=
  { psn := 0x123456, port := 1, qp := some { handle := 1, qp_num := 17 }, cq := 5 }

/-- A freshly created queue pair, before any driver call on it. -/
def sOpen : State := { q := qOpen, calls := [] }

/-- A registered region of 64 bytes. -/
def mrSmall : memoryRegion := { mr := { addr := 4096, length := 64, lkey := 11, rkey := 12 } }

/-- A registered region of 4 GiB. -/
def mrHuge : memoryRegion :=
  { mr := { addr := 4096, length := 2 ^ 32, lkey := 11, rkey := 12 } }

/-- A send work request with a zeroed descriptor. -/
def sendReq (mr : Option memoryRegion) : sendWorkRequest :=
  { mr := mr
    sendWr := { wr_id := 0, sg_list := SgePointer.nil, num_sge := 0, opcode := 0, send_flags := 0,
                imm_data := 0, remoteAddr := 0, rkey := 0 } }

/-- A receive work request with a zeroed descriptor. -/
def recvReq (mr : Option memoryRegion) : receiveWorkRequest :=
  { mr := mr, recvWr := { wr_id := 0, sg_list := SgePointer.nil, num_sge := 0 } }

/-- A driver entry point for `ibv_create_qp` that always hands out a queue pair. -/
def createOk : Nat → ibv_qp_init_attr → Option ibv_qp × Option GoError :=
  fun _ _ => (some { handle := 1, qp_num := 17 }, none)

/-- The queue pair `sOpen` after a `Close` the driver accepted. -/
def sClosed : State := (Close acceptAll sOpen).2

/-! ## Flag words -/

theorem lor_eq_zero (a b : Nat) : a ||| b = 0 ↔ a = 0 ∧ b = 0 := by
  constructor
  · intro h
    have ht : ∀ i, (a.testBit i || b.testBit i) = false := by
      intro i
      rw [← Nat.testBit_or, h]
      simp
    constructor <;> apply Nat.eq_of_testBit_eq <;> intro i <;> have := ht i <;> simp_all
  · rintro ⟨rfl, rfl⟩
    rfl

theorem hasFlag_or (a b f : Nat) : hasFlag (a ||| b) f ↔ hasFlag a f ∨ hasFlag b f := by
  unfold hasFlag
  rw [Nat.and_distrib_right, Ne, lor_eq_zero]
  tauto

theorem hasFlag_self {f : Nat} (hf : f ≠ 0) : hasFlag f f := by
  unfold hasFlag
  rwa [Nat.and_self]

theorem mem_all (m : ibv_qp_attr_mask) : m ∈ ibv_qp_attr_mask.all := by
  cases m <;> simp [ibv_qp_attr_mask.all]

theorem WellFormed.mask_ne_zero {C : Verbs} (hC : C.WellFormed) (m : ibv_qp_attr_mask) :
    C.mask m ≠ 0 :=
  hC.1 m (mem_all m)

theorem WellFormed.mask_disjoint {C : Verbs} (hC : C.WellFormed) {a b : ibv_qp_attr_mask}
    (hab : a ≠ b) : C.mask a &&& C.mask b = 0 := by
  have hsymm : Symmetric (fun a b : ibv_qp_attr_mask => C.mask a &&& C.mask b = 0) := by
    intro x y hxy
    rwa [Nat.and_comm]
  exact hC.2.1.forall hsymm (mem_all a) (mem_all b) hab

/-- Among the enumerators of a well-formed header, a mask that is one enumerator
names exactly that enumerator. -/
theorem hasFlag_mask_iff {C : Verbs} (hC : C.WellFormed) (a b : ibv_qp_attr_mask) :
    hasFlag (C.mask a) (C.mask b) ↔ a = b := by
  constructor
  · intro h
    by_contra hab
    exact h (WellFormed.mask_disjoint hC hab)
  · rintro rfl
    exact hasFlag_self (WellFormed.mask_ne_zero hC a)

theorem verbs_h_wellFormed : verbs_h.WellFormed := by
  refine ⟨?_, ?_, ?_, ?_, ?_⟩
  · decide
  · decide
  · decide
  · decide
  · decide

/-! ## The handshake: field masks -/

theorem modify_eq (E : Env) (s : State) (attr : ibv_qp_attr) (mask : Nat) :
    modify E s attr mask =
      (Outcome.returned
          (NewErrorOrNil "ibv_modify_qp"
            (E.driver s.calls (DriverCall.ibv_modify_qp s.q.qp attr mask))),
        { q := s.q, calls := s.calls ++ [DriverCall.ibv_modify_qp s.q.qp attr mask] }) :=
  rfl

theorem InitMask_names {C : Verbs} (hC : C.WellFormed) (q : queuePair)
    (m : ibv_qp_attr_mask) :
    hasFlag (InitMask C) (C.mask m) ↔ ∃ fv ∈ InitBody C q, fv.1.maskName = m := by
  simp only [InitMask, hasFlag_or, hasFlag_mask_iff hC]
  cases m <;> simp [InitBody, AttrField.maskName]

theorem Ready2ReceiveMask_names {C : Verbs} (hC : C.WellFormed) (q : queuePair)
    (destGid destQpn destPsn : Nat) (m : ibv_qp_attr_mask) :
    hasFlag (Ready2ReceiveMask C) (C.mask m) ↔
      ∃ fv ∈ Ready2ReceiveBody C q destGid destQpn destPsn, fv.1.maskName = m := by
  simp only [Ready2ReceiveMask, hasFlag_or, hasFlag_mask_iff hC]
  cases m <;> simp [Ready2ReceiveBody, AttrField.maskName]

theorem Ready2SendMask_names {C : Verbs} (hC : C.WellFormed) (q : queuePair)
    (m : ibv_qp_attr_mask) :
    hasFlag (Ready2SendMask C) (C.mask m) ↔ ∃ fv ∈ Ready2SendBody C q, fv.1.maskName = m := by
  simp only [Ready2SendMask, hasFlag_or, hasFlag_mask_iff hC]
  cases m <;> simp [Ready2SendBody, AttrField.maskName]

/-- C1: each of `Init`, `Ready2Receive` and `Ready2Send` makes one `ibv_modify_qp`
call, whose record is the zeroed record with the assignments of the method body and
whose mask names an enumerator of `ibv_qp_attr_mask` exactly when the body assigns a
member that enumerator names: no assigned member is missing from the mask, and the
mask names nothing the body did not assign. -/
theorem handshake_mask_names_exactly_the_assigned_fields (C : Verbs) (hC : C.WellFormed)
    (E : Env) (s : State) (destGid destQpn destPsn : Nat) :
    ((Init C E s).2.calls =
        s.calls ++ [DriverCall.ibv_modify_qp s.q.qp (ibv_qp_attr.build (InitBody C s.q))
          (InitMask C)] ∧
      ∀ m, hasFlag (InitMask C) (C.mask m) ↔ ∃ fv ∈ InitBody C s.q, fv.1.maskName = m) ∧
    ((Ready2Receive C E s destGid destQpn destPsn).2.calls =
        s.calls ++ [DriverCall.ibv_modify_qp s.q.qp
          (ibv_qp_attr.build (Ready2ReceiveBody C s.q destGid destQpn destPsn))
          (Ready2ReceiveMask C)] ∧
      ∀ m, hasFlag (Ready2ReceiveMask C) (C.mask m) ↔
        ∃ fv ∈ Ready2ReceiveBody C s.q destGid destQpn destPsn, fv.1.maskName = m) ∧
    ((Ready2Send C E s).2.calls =
        s.calls ++ [DriverCall.ibv_modify_qp s.q.qp (ibv_qp_attr.build (Ready2SendBody C s.q))
          (Ready2SendMask C)] ∧
      ∀ m, hasFlag (Ready2SendMask C) (C.mask m) ↔
        ∃ fv ∈ Ready2SendBody C s.q, fv.1.maskName = m) :=
  ⟨⟨rfl, InitMask_names hC s.q⟩,
   ⟨rfl, Ready2ReceiveMask_names hC s.q destGid destQpn destPsn⟩,
   ⟨rfl, Ready2SendMask_names hC s.q⟩⟩

/-- With the libibverbs header and a fresh queue pair, the mask `Init` submits names
exactly the members `Init` assigns. -/
theorem handshake_mask_names_exactly_the_assigned_fields_witness :
    verbs_h.WellFormed ∧
      ∀ m, hasFlag (InitMask verbs_h) (verbs_h.mask m) ↔
        ∃ fv ∈ InitBody verbs_h sOpen.q, fv.1.maskName = m :=
  ⟨verbs_h_wellFormed,
    (handshake_mask_names_exactly_the_assigned_fields verbs_h verbs_h_wellFormed acceptAll
      sOpen 0 0 0).1.2⟩

/-! ## The handshake: ordering -/

theorem NewErrorOrNil_ne_none (name : String) (errno : Int) :
    NewErrorOrNil name errno ≠ none ↔ errno ≠ 0 := by
  unfold NewErrorOrNil
  split <;> simp_all

theorem returned_ne_nil_iff (name : String) (errno : Int) :
    Outcome.returned (NewErrorOrNil name errno) ≠ Outcome.returned none ↔ errno ≠ 0 := by
  rw [← NewErrorOrNil_ne_none name errno]
  constructor
  · intro h hn
    exact h (by rw [hn])
  · intro h hn
    exact h (Outcome.returned.inj hn)

/-- C2, as the claim states it, fails: a repeated transition attempt need not fail.
On a fresh queue pair, with a driver that answers `ibv_modify_qp` by the
InfiniBand state table (it rejects `Ready2Receive` and `Ready2Send` before
`Init`), `Init` called twice in a row returns success both times, and both calls
reach the driver. -/
theorem repeated_Init_succeeds_on_a_state_table_driver :
    sOpen.calls = [] ∧
    outcomes verbs_h stateTable sOpen [Op.Init, Op.Init] =
      [Outcome.returned none, Outcome.returned none] ∧
    (run verbs_h stateTable sOpen [Op.Init, Op.Init]).calls =
      [DriverCall.ibv_modify_qp sOpen.q.qp (ibv_qp_attr.build (InitBody verbs_h sOpen.q))
          (InitMask verbs_h),
        DriverCall.ibv_modify_qp sOpen.q.qp (ibv_qp_attr.build (InitBody verbs_h sOpen.q))
          (InitMask verbs_h)] ∧
    outcomes verbs_h stateTable sOpen [Op.Ready2Receive 0 17 5] =
      [Outcome.returned (some (GoError.errno "ibv_modify_qp" 22))] ∧
    outcomes verbs_h stateTable sOpen [Op.Ready2Send] =
      [Outcome.returned (some (GoError.errno "ibv_modify_qp" 22))] := by
  decide

/-- C2, amended: `Init`, `Ready2Receive` and `Ready2Send` keep no record of the
handshake and check no ordering themselves.  Each appends exactly one
`ibv_modify_qp` call on the handle to the call log, leaves the queue pair as it
was, and returns what `NewErrorOrNil` makes of the driver's answer to that call:
an error exactly when the answer is not 0.  The whole result is a function of
the queue pair, the arguments and the driver's answer. -/
theorem transitions_fail_exactly_when_the_driver_rejects (C : Verbs) (E : Env) (s : State)
    (destGid destQpn destPsn : Nat) :
    (Init C E s =
        (Outcome.returned (NewErrorOrNil "ibv_modify_qp"
            (E.driver s.calls (DriverCall.ibv_modify_qp s.q.qp
              (ibv_qp_attr.build (InitBody C s.q)) (InitMask C)))),
          { q := s.q
            calls := s.calls ++ [DriverCall.ibv_modify_qp s.q.qp
              (ibv_qp_attr.build (InitBody C s.q)) (InitMask C)] }) ∧
      ((Init C E s).1 ≠ Outcome.returned none ↔
        E.driver s.calls (DriverCall.ibv_modify_qp s.q.qp
          (ibv_qp_attr.build (InitBody C s.q)) (InitMask C)) ≠ 0)) ∧
    (Ready2Receive C E s destGid destQpn destPsn =
        (Outcome.returned (NewErrorOrNil "ibv_modify_qp"
            (E.driver s.calls (DriverCall.ibv_modify_qp s.q.qp
              (ibv_qp_attr.build (Ready2ReceiveBody C s.q destGid destQpn destPsn))
              (Ready2ReceiveMask C)))),
          { q := s.q
            calls := s.calls ++ [DriverCall.ibv_modify_qp s.q.qp
              (ibv_qp_attr.build (Ready2ReceiveBody C s.q destGid destQpn destPsn))
              (Ready2ReceiveMask C)] }) ∧
      ((Ready2Receive C E s destGid destQpn destPsn).1 ≠ Outcome.returned none ↔
        E.driver s.calls (DriverCall.ibv_modify_qp s.q.qp
          (ibv_qp_attr.build (Ready2ReceiveBody C s.q destGid destQpn destPsn))
          (Ready2ReceiveMask C)) ≠ 0)) ∧
    (Ready2Send C E s =
        (Outcome.returned (NewErrorOrNil "ibv_modify_qp"
            (E.driver s.calls (DriverCall.ibv_modify_qp s.q.qp
              (ibv_qp_attr.build (Ready2SendBody C s.q)) (Ready2SendMask C)))),
          { q := s.q
            calls := s.calls ++ [DriverCall.ibv_modify_qp s.q.qp
              (ibv_qp_attr.build (Ready2SendBody C s.q)) (Ready2SendMask C)] }) ∧
      ((Ready2Send C E s).1 ≠ Outcome.returned none ↔
        E.driver s.calls (DriverCall.ibv_modify_qp s.q.qp
          (ibv_qp_attr.build (Ready2SendBody C s.q)) (Ready2SendMask C)) ≠ 0)) := by
  refine ⟨⟨rfl, ?_⟩, ⟨rfl, ?_⟩, ⟨rfl, ?_⟩⟩
  · simp only [Init, modify_eq]
    exact returned_ne_nil_iff _ _
  · simp only [Ready2Receive, modify_eq]
    exact returned_ne_nil_iff _ _
  · simp only [Ready2Send, modify_eq]
    exact returned_ne_nil_iff _ _

/-! ## Posting: send -/

theorem uint32_t_of_lt {x : Nat} (h : x < 2 ^ 32) : uint32_t x = x :=
  Nat.mod_eq_of_lt h

theorem uint64_t_of_lt {x : Nat} (h : x < 2 ^ 64) : uint64_t x = x :=
  Nat.mod_eq_of_lt h

/-- C3 fails on the code under the default runtime setting.  `PostSend` on an open
queue pair with a region of 64 bytes builds the descriptor the claim describes
(opcode send, signaled, not inline, one element from the region), and so does
`PostSendImm` with immediate value 5 (opcode send-with-immediate, inline), but the
descriptor holds `&sge`, a pointer into Go memory, so the cgo pointer check panics
and nothing reaches `ibv_post_send`.  Without a region the descriptor holds no such
pointer and is submitted as the claim says. -/
theorem PostSend_with_a_region_panics_before_the_driver :
    acceptAll.cgocheck = true ∧ sOpen.q.qp ≠ none ∧
    PostSend verbs_h acceptAll sOpen (sendReq (some mrSmall)) =
      (Outcome.panicked, sOpen,
        { mr := some mrSmall
          sendWr :=
            { wr_id := 7, sg_list := SgePointer.go { addr := 4096, length := 64, lkey := 11 },
              num_sge := 1, opcode := verbs_h.IBV_WR_SEND,
              send_flags := verbs_h.IBV_SEND_SIGNALED, imm_data := 0, remoteAddr := 0,
              rkey := 0 } }) ∧
    PostSendImm verbs_h acceptAll sOpen (sendReq (some mrSmall)) 5 =
      (Outcome.panicked, sOpen,
        { mr := some mrSmall
          sendWr :=
            { wr_id := 7, sg_list := SgePointer.go { addr := 4096, length := 64, lkey := 11 },
              num_sge := 1, opcode := verbs_h.IBV_WR_SEND_WITH_IMM,
              send_flags := verbs_h.IBV_SEND_INLINE, imm_data := 5, remoteAddr := 0,
              rkey := 0 } }) ∧
    (PostSend verbs_h acceptAll sOpen (sendReq none)).1 = Outcome.returned none ∧
    (PostSend verbs_h acceptAll sOpen (sendReq none)).2.1.calls =
      [DriverCall.ibv_post_send sOpen.q.qp
        { wr_id := 7, sg_list := SgePointer.nil, num_sge := 0, opcode := verbs_h.IBV_WR_SEND,
          send_flags := verbs_h.IBV_SEND_INLINE, imm_data := 0, remoteAddr := 0, rkey := 0 }] ∧
    (PostSendImm verbs_h acceptAll sOpen (sendReq none) 5).2.1.calls =
      [DriverCall.ibv_post_send sOpen.q.qp
        { wr_id := 7, sg_list := SgePointer.nil, num_sge := 0,
          opcode := verbs_h.IBV_WR_SEND_WITH_IMM, send_flags := verbs_h.IBV_SEND_INLINE,
          imm_data := 5, remoteAddr := 0, rkey := 0 }] := by
  decide

/-! ## Posting: one-sided write and read -/

theorem PostWriteImm_open (C : Verbs) (E : Env) (s : State) (wr : sendWorkRequest)
    (m : memoryRegion) (remoteAddr rkey imm : Nat) (hq : s.q.qp ≠ none)
    (hm : wr.mr = some m) :
    (PostWriteImm C E s wr remoteAddr rkey imm).2.2.sendWr.sg_list = SgePointer.go (sgeOf m) ∧
      (PostWriteImm C E s wr remoteAddr rkey imm).2.2.sendWr.num_sge = 1 ∧
      (PostWriteImm C E s wr remoteAddr rkey imm).2.2.sendWr.send_flags = C.IBV_SEND_SIGNALED ∧
      (PostWriteImm C E s wr remoteAddr rkey imm).2.2.sendWr.opcode = C.IBV_WR_RDMA_WRITE ∧
      (PostWriteImm C E s wr remoteAddr rkey imm).2.2.sendWr.remoteAddr = remoteAddr ∧
      (PostWriteImm C E s wr remoteAddr rkey imm).2.2.sendWr.rkey = rkey ∧
      (PostWriteImm C E s wr remoteAddr rkey imm).2.2.sendWr.imm_data = wr.sendWr.imm_data ∧
      (PostWriteImm C E s wr remoteAddr rkey imm).2.1.calls =
        (if E.cgocheck then s.calls
          else s.calls ++ [DriverCall.ibv_post_send s.q.qp
            (PostWriteImm C E s wr remoteAddr rkey imm).2.2.sendWr]) ∧
      (E.cgocheck = false → (PostWriteImm C E s wr remoteAddr rkey imm).1 ≠ Outcome.panicked) := by
  cases hqp : s.q.qp with
  | none => exact absurd hqp hq
  | some h =>
    cases hc : E.cgocheck <;>
      simp [PostWriteImm, hqp, hm, cgoCheckFails, SgePointer.isGo, hc]

theorem PostRead_attached (C : Verbs) (E : Env) (s : State) (wr : sendWorkRequest)
    (m : memoryRegion) (remoteAddr rkey : Nat) (hm : wr.mr = some m) :
    (PostRead C E s wr remoteAddr rkey).2.2.sendWr.sg_list = SgePointer.go (sgeOf m) ∧
      (PostRead C E s wr remoteAddr rkey).2.2.sendWr.num_sge = 1 ∧
      (PostRead C E s wr remoteAddr rkey).2.2.sendWr.send_flags = C.IBV_SEND_SIGNALED ∧
      (PostRead C E s wr remoteAddr rkey).2.2.sendWr.opcode = C.IBV_WR_RDMA_READ ∧
      (PostRead C E s wr remoteAddr rkey).2.2.sendWr.remoteAddr = remoteAddr ∧
      (PostRead C E s wr remoteAddr rkey).2.2.sendWr.rkey = rkey ∧
      (PostRead C E s wr remoteAddr rkey).2.2.sendWr.imm_data = wr.sendWr.imm_data ∧
      (PostRead C E s wr remoteAddr rkey).2.1.calls =
        (if E.cgocheck then s.calls
          else s.calls ++ [DriverCall.ibv_post_send s.q.qp
            (PostRead C E s wr remoteAddr rkey).2.2.sendWr]) ∧
      (E.cgocheck = false → (PostRead C E s wr remoteAddr rkey).1 ≠ Outcome.panicked) := by
  cases hc : E.cgocheck <;>
    simp [PostRead, hm, cgoCheckFails, SgePointer.isGo, hc]

theorem sgeOf_of_lt {m : memoryRegion} (hr : m.mr.InRange) (hlen : m.mr.length < 2 ^ 32) :
    sgeOf m = { addr := m.mr.addr, length := m.mr.length, lkey := m.mr.lkey } := by
  simp [sgeOf, uint64_t_of_lt hr.1, uint32_t_of_lt hlen]

theorem calls_cases (b : Bool) (l : List DriverCall) (c : DriverCall) :
    (if b then l else l ++ [c]) = l ∨ (if b then l else l ++ [c]) = l ++ [c] := by
  cases b <;> simp

/-- C4, as the claim states it, fails twice over on an open queue pair with a
region attached.  Under the default runtime setting `PostWrite` and `PostRead`
panic at the cgo pointer check and submit nothing, for a region of 64 bytes as for
any other.  And for a region of 4 GiB (within its C types, length 4294967296) the
element they build has length 0: so it stands in the descriptor after the panic,
and so it is submitted when the program runs with `cgocheck=0`. -/
theorem rdma_post_panics_and_sge_length_is_truncated :
    acceptAll.cgocheck = true ∧ unchecked.cgocheck = false ∧ sOpen.q.qp ≠ none ∧
    (PostWrite verbs_h acceptAll sOpen (sendReq (some mrSmall)) 8192 77).1 = Outcome.panicked ∧
    (PostWrite verbs_h acceptAll sOpen (sendReq (some mrSmall)) 8192 77).2.1.calls = [] ∧
    (PostRead verbs_h acceptAll sOpen (sendReq (some mrSmall)) 8192 77).1 = Outcome.panicked ∧
    (PostRead verbs_h acceptAll sOpen (sendReq (some mrSmall)) 8192 77).2.1.calls = [] ∧
    mrHuge.mr.InRange ∧ mrHuge.mr.length = 4294967296 ∧
    (PostWrite verbs_h acceptAll sOpen (sendReq (some mrHuge)) 8192 77).2.2.sendWr.sg_list =
      SgePointer.go { addr := 4096, length := 0, lkey := 11 } ∧
    (PostRead verbs_h acceptAll sOpen (sendReq (some mrHuge)) 8192 77).2.2.sendWr.sg_list =
      SgePointer.go { addr := 4096, length := 0, lkey := 11 } ∧
    (PostWrite verbs_h unchecked sOpen (sendReq (some mrHuge)) 8192 77).2.1.calls =
      [DriverCall.ibv_post_send sOpen.q.qp
        { wr_id := 7, sg_list := SgePointer.go { addr := 4096, length := 0, lkey := 11 },
          num_sge := 1, opcode := verbs_h.IBV_WR_RDMA_WRITE,
          send_flags := verbs_h.IBV_SEND_SIGNALED, imm_data := 0, remoteAddr := 8192,
          rkey := 77 }] ∧
    (PostRead verbs_h unchecked sOpen (sendReq (some mrHuge)) 8192 77).2.1.calls =
      [DriverCall.ibv_post_send sOpen.q.qp
        { wr_id := 7, sg_list := SgePointer.go { addr := 4096, length := 0, lkey := 11 },
          num_sge := 1, opcode := verbs_h.IBV_WR_RDMA_READ,
          send_flags := verbs_h.IBV_SEND_SIGNALED, imm_data := 0, remoteAddr := 8192,
          rkey := 77 }] := by
  decide

/-- C4, amended: on an open queue pair and for a request with a region attached
whose length is below 2^32, `PostWrite` and `PostRead` each build in the request
the descriptor they pass to `ibv_post_send`: one scatter/gather element whose
address, length and local key are those of the region, the signaled flag, the
RDMA-write (resp. RDMA-read) opcode, and the remote address and remote key as
supplied.  The driver receives nothing but that descriptor, at most once, and
receives it when the cgo pointer check is off. -/
theorem rdma_descriptor_of_region (C : Verbs) (hC : C.WellFormed) (E : Env) (s : State)
    (wr : sendWorkRequest) (m : memoryRegion) (remoteAddr rkey : Nat)
    (hq : s.q.qp ≠ none) (hm : wr.mr = some m) (hr : m.mr.InRange)
    (hlen : m.mr.length < 2 ^ 32) :
    (∃ d e, (PostWrite C E s wr remoteAddr rkey).2.2.sendWr = d ∧
      d.sg_list.elem = some e ∧ d.num_sge = 1 ∧
      e.addr = m.mr.addr ∧ e.length = m.mr.length ∧ e.lkey = m.mr.lkey ∧
      hasFlag d.send_flags C.IBV_SEND_SIGNALED ∧ d.opcode = C.IBV_WR_RDMA_WRITE ∧
      d.remoteAddr = remoteAddr ∧ d.rkey = rkey ∧
      ((PostWrite C E s wr remoteAddr rkey).2.1.calls = s.calls ∨
        (PostWrite C E s wr remoteAddr rkey).2.1.calls =
          s.calls ++ [DriverCall.ibv_post_send s.q.qp d]) ∧
      (E.cgocheck = false →
        (PostWrite C E s wr remoteAddr rkey).1 ≠ Outcome.panicked ∧
        (PostWrite C E s wr remoteAddr rkey).2.1.calls =
          s.calls ++ [DriverCall.ibv_post_send s.q.qp d])) ∧
    (∃ d e, (PostRead C E s wr remoteAddr rkey).2.2.sendWr = d ∧
      d.sg_list.elem = some e ∧ d.num_sge = 1 ∧
      e.addr = m.mr.addr ∧ e.length = m.mr.length ∧ e.lkey = m.mr.lkey ∧
      hasFlag d.send_flags C.IBV_SEND_SIGNALED ∧ d.opcode = C.IBV_WR_RDMA_READ ∧
      d.remoteAddr = remoteAddr ∧ d.rkey = rkey ∧
      ((PostRead C E s wr remoteAddr rkey).2.1.calls = s.calls ∨
        (PostRead C E s wr remoteAddr rkey).2.1.calls =
          s.calls ++ [DriverCall.ibv_post_send s.q.qp d]) ∧
      (E.cgocheck = false →
        (PostRead C E s wr remoteAddr rkey).1 ≠ Outcome.panicked ∧
        (PostRead C E s wr remoteAddr rkey).2.1.calls =
          s.calls ++ [DriverCall.ibv_post_send s.q.qp d])) := by
  have hsig : C.IBV_SEND_SIGNALED ≠ 0 := hC.2.2.1
  constructor
  · obtain ⟨hsg, hn, hf, ho, ha, hk, _, hcalls, hret⟩ :=
      PostWriteImm_open C E s wr m remoteAddr rkey 0 hq hm
    refine ⟨_, { addr := m.mr.addr, length := m.mr.length, lkey := m.mr.lkey }, rfl, ?_, hn,
      rfl, rfl, rfl, ?_, ho, ha, hk, ?_, ?_⟩
    · show SgePointer.elem (PostWriteImm C E s wr remoteAddr rkey 0).2.2.sendWr.sg_list = _
      rw [hsg, sgeOf_of_lt hr hlen]
      rfl
    · show hasFlag (PostWriteImm C E s wr remoteAddr rkey 0).2.2.sendWr.send_flags _
      rw [hf]
      exact hasFlag_self hsig
    · have hc := calls_cases E.cgocheck s.calls
        (DriverCall.ibv_post_send s.q.qp (PostWriteImm C E s wr remoteAddr rkey 0).2.2.sendWr)
      rw [← hcalls] at hc
      exact hc
    · intro hc
      refine ⟨hret hc, ?_⟩
      show (PostWriteImm C E s wr remoteAddr rkey 0).2.1.calls = _
      rw [hcalls, hc]
      rfl
  · obtain ⟨hsg, hn, hf, ho, ha, hk, _, hcalls, hret⟩ :=
      PostRead_attached C E s wr m remoteAddr rkey hm
    refine ⟨_, { addr := m.mr.addr, length := m.mr.length, lkey := m.mr.lkey }, rfl, ?_, hn,
      rfl, rfl, rfl, ?_, ho, ha, hk, ?_, ?_⟩
    · rw [hsg, sgeOf_of_lt hr hlen]
      rfl
    · rw [hf]
      exact hasFlag_self hsig
    · have hc := calls_cases E.cgocheck s.calls
        (DriverCall.ibv_post_send s.q.qp (PostRead C E s wr remoteAddr rkey).2.2.sendWr)
      rw [← hcalls] at hc
      exact hc
    · intro hc
      refine ⟨hret hc, ?_⟩
      rw [hcalls, hc]
      rfl

/-- With the libibverbs header, an open queue pair, a region of 64 bytes and the
cgo pointer check off. -/
theorem rdma_descriptor_of_region_witness :
    verbs_h.WellFormed ∧ sOpen.q.qp ≠ none ∧ (sendReq (some mrSmall)).mr = some mrSmall ∧
    mrSmall.mr.InRange ∧ mrSmall.mr.length < 2 ^ 32 ∧
    ∃ d e, (PostWrite verbs_h unchecked sOpen (sendReq (some mrSmall)) 8192 77).2.2.sendWr = d ∧
      d.sg_list.elem = some e ∧ d.num_sge = 1 ∧
      e.addr = mrSmall.mr.addr ∧ e.length = mrSmall.mr.length ∧ e.lkey = mrSmall.mr.lkey ∧
      hasFlag d.send_flags verbs_h.IBV_SEND_SIGNALED ∧
      d.opcode = verbs_h.IBV_WR_RDMA_WRITE ∧ d.remoteAddr = 8192 ∧ d.rkey = 77 ∧
      ((PostWrite verbs_h unchecked sOpen (sendReq (some mrSmall)) 8192 77).2.1.calls =
          sOpen.calls ∨
        (PostWrite verbs_h unchecked sOpen (sendReq (some mrSmall)) 8192 77).2.1.calls =
          sOpen.calls ++ [DriverCall.ibv_post_send sOpen.q.qp d]) ∧
      (unchecked.cgocheck = false →
        (PostWrite verbs_h unchecked sOpen (sendReq (some mrSmall)) 8192 77).1 ≠
          Outcome.panicked ∧
        (PostWrite verbs_h unchecked sOpen (sendReq (some mrSmall)) 8192 77).2.1.calls =
          sOpen.calls ++ [DriverCall.ibv_post_send sOpen.q.qp d]) :=
  ⟨verbs_h_wellFormed, by decide, rfl, by decide, by decide,
    (rdma_descriptor_of_region verbs_h verbs_h_wellFormed unchecked sOpen
      (sendReq (some mrSmall)) mrSmall 8192 77 (by decide) rfl (by decide) (by decide)).1⟩

/-! ## What no method changes -/

theorem Close_q (E : Env) (s : State) :
    (Close E s).2.q.psn = s.q.psn ∧ (Close E s).2.q.port = s.q.port ∧
      (s.q.qp = none → (Close E s).2.q.qp = none) := by
  unfold Close
  cases hqp : s.q.qp with
  | none => simp [hqp]
  | some h =>
    by_cases he : E.driver s.calls (DriverCall.ibv_destroy_qp (some h)) = 0 <;> simp [he]

theorem PostReceive_q (E : Env) (s : State) (wr : receiveWorkRequest) :
    (PostReceive E s wr).2.1.q = s.q := by
  unfold PostReceive
  cases hqp : s.q.qp with
  | none => rfl
  | some h =>
    cases hmr : wr.mr with
    | none => simp
    | some m =>
      simp only []
      split <;> rfl

theorem PostWriteImm_q (C : Verbs) (E : Env) (s : State) (wr : sendWorkRequest)
    (remoteAddr rkey imm : Nat) : (PostWriteImm C E s wr remoteAddr rkey imm).2.1.q = s.q := by
  unfold PostWriteImm
  cases hqp : s.q.qp with
  | none => rfl
  | some h =>
    cases hmr : wr.mr with
    | none => simp
    | some m =>
      simp only []
      split <;> rfl

theorem PostSendImm_q (C : Verbs) (E : Env) (s : State) (wr : sendWorkRequest)
    (imm : Nat) : (PostSendImm C E s wr imm).2.1.q = s.q := by
  unfold PostSendImm
  simp only []
  split_ifs <;> rfl

theorem PostRead_q (C : Verbs) (E : Env) (s : State) (wr : sendWorkRequest)
    (remoteAddr rkey : Nat) : (PostRead C E s wr remoteAddr rkey).2.1.q = s.q := by
  unfold PostRead
  cases hmr : wr.mr with
  | none => simp
  | some m =>
    simp only []
    split <;> rfl

/-- No method writes `psn` or `port`, and none reopens a closed queue pair. -/
theorem step_q (C : Verbs) (E : Env) (s : State) (op : Op) :
    (step C E s op).2.q.psn = s.q.psn ∧ (step C E s op).2.q.port = s.q.port ∧
      (s.q.qp = none → (step C E s op).2.q.qp = none) := by
  cases op with
  | Psn => exact ⟨rfl, rfl, id⟩
  | Qpn => exact ⟨rfl, rfl, id⟩
  | Close => exact Close_q E s
  | Init => exact ⟨rfl, rfl, id⟩
  | Ready2Receive g n p => exact ⟨rfl, rfl, id⟩
  | Ready2Send => exact ⟨rfl, rfl, id⟩
  | PostSend wr =>
    have h : (step C E s (Op.PostSend wr)).2.q = s.q := PostSendImm_q C E s wr 0
    rw [h]
    exact ⟨rfl, rfl, id⟩
  | PostSendImm wr imm =>
    have h : (step C E s (Op.PostSendImm wr imm)).2.q = s.q := PostSendImm_q C E s wr imm
    rw [h]
    exact ⟨rfl, rfl, id⟩
  | PostReceive wr =>
    have h : (step C E s (Op.PostReceive wr)).2.q = s.q := PostReceive_q E s wr
    rw [h]
    exact ⟨rfl, rfl, id⟩
  | PostWrite wr a k =>
    have h : (step C E s (Op.PostWrite wr a k)).2.q = s.q := PostWriteImm_q C E s wr a k 0
    rw [h]
    exact ⟨rfl, rfl, id⟩
  | PostWriteImm wr a k imm =>
    have h : (step C E s (Op.PostWriteImm wr a k imm)).2.q = s.q :=
      PostWriteImm_q C E s wr a k imm
    rw [h]
    exact ⟨rfl, rfl, id⟩
  | PostRead wr a k =>
    have h : (step C E s (Op.PostRead wr a k)).2.q = s.q := PostRead_q C E s wr a k
    rw [h]
    exact ⟨rfl, rfl, id⟩

theorem run_q (C : Verbs) (E : Env) (ops : List Op) :
    ∀ s : State, (run C E s ops).q.psn = s.q.psn ∧ (run C E s ops).q.port = s.q.port ∧
      (s.q.qp = none → (run C E s ops).q.qp = none) := by
  induction ops with
  | nil => intro s; exact ⟨rfl, rfl, id⟩
  | cons op ops ih =>
    intro s
    obtain ⟨h1, h2, h3⟩ := step_q C E s op
    obtain ⟨i1, i2, i3⟩ := ih (step C E s op).2
    exact ⟨i1.trans h1, i2.trans h2, fun h => i3 (h3 h)⟩

theorem Close_success_closed (E : Env) (s : State)
    (h : (Close E s).1 = Outcome.returned none) : (Close E s).2.q.qp = none := by
  unfold Close at h ⊢
  cases hqp : s.q.qp with
  | none => simp [hqp]
  | some q =>
    by_cases he : E.driver s.calls (DriverCall.ibv_destroy_qp (some q)) = 0
    · simp [he]
    · simp [hqp, he] at h

theorem Close_closed (E : Env) (s : State) (h : s.q.qp = none) :
    Close E s = (Outcome.returned none, s) := by
  unfold Close
  simp [h]

theorem PostReceive_closed (E : Env) (s : State) (wr : receiveWorkRequest)
    (h : s.q.qp = none) : PostReceive E s wr = (Outcome.returned (some QPClosedErr), s, wr) := by
  unfold PostReceive
  simp [h]

/-! ## After `Close` -/

/-- C5: once `Close` has returned success on a queue pair, then after any further
method calls `PostReceive` returns `QPClosedErr`, makes no driver call and leaves
the queue pair and the work request as they were. -/
theorem PostReceive_after_Close_fails_closed (C : Verbs) (E : Env) (s : State)
    (ops : List Op) (wr : receiveWorkRequest)
    (hclose : (Close E s).1 = Outcome.returned none) :
    PostReceive E (run C E (Close E s).2 ops) wr =
      (Outcome.returned (some QPClosedErr), run C E (Close E s).2 ops, wr) :=
  PostReceive_closed E _ wr ((run_q C E ops (Close E s).2).2.2 (Close_success_closed E s hclose))

/-- An accepted `Close`, then `Init` and a send, then `PostReceive` with a region. -/
theorem PostReceive_after_Close_fails_closed_witness :
    (Close acceptAll sOpen).1 = Outcome.returned none ∧
    PostReceive acceptAll
        (run verbs_h acceptAll (Close acceptAll sOpen).2 [Op.Init, Op.PostSend (sendReq none)])
        (recvReq (some mrSmall)) =
      (Outcome.returned (some QPClosedErr),
        run verbs_h acceptAll (Close acceptAll sOpen).2 [Op.Init, Op.PostSend (sendReq none)],
        recvReq (some mrSmall)) :=
  ⟨by decide,
    PostReceive_after_Close_fails_closed verbs_h acceptAll sOpen
      [Op.Init, Op.PostSend (sendReq none)] (recvReq (some mrSmall)) (by decide)⟩

/-- C6 fails on the code: `PostSendImm` has no closed check.  After an accepted
`Close` the handle is nil, and `PostSendImm` with immediate value 5 and `PostSend`,
on a request without a region, still hand a descriptor to `ibv_post_send`, with
the nil handle, and return what the driver answers; with a region attached they
panic at the cgo pointer check.  For no queue pair, request, immediate value or
driver is the result `QPClosedErr`. -/
theorem PostSendImm_on_a_closed_queue_pair_reaches_the_driver :
    (Close acceptAll sOpen).1 = Outcome.returned none ∧ sClosed.q.qp = none ∧
    (PostSend verbs_h acceptAll sClosed (sendReq none)).1 = Outcome.returned none ∧
    (PostSend verbs_h acceptAll sClosed (sendReq none)).2.1.calls =
      sClosed.calls ++ [DriverCall.ibv_post_send none
        { wr_id := 7, sg_list := SgePointer.nil, num_sge := 0, opcode := verbs_h.IBV_WR_SEND,
          send_flags := verbs_h.IBV_SEND_INLINE, imm_data := 0, remoteAddr := 0, rkey := 0 }] ∧
    (PostSendImm verbs_h rejectAll sClosed (sendReq none) 5).1 =
      Outcome.returned (some (GoError.errno "ibv_post_send" 22)) ∧
    (PostSendImm verbs_h rejectAll sClosed (sendReq none) 5).2.1.calls =
      sClosed.calls ++ [DriverCall.ibv_post_send none
        { wr_id := 7, sg_list := SgePointer.nil, num_sge := 0,
          opcode := verbs_h.IBV_WR_SEND_WITH_IMM, send_flags := verbs_h.IBV_SEND_INLINE,
          imm_data := 5, remoteAddr := 0, rkey := 0 }] ∧
    (PostSend verbs_h acceptAll sClosed (sendReq (some mrSmall))).1 = Outcome.panicked ∧
    ∀ (C : Verbs) (E : Env) (s : State) (wr : sendWorkRequest) (imm : Nat),
      (PostSendImm C E s wr imm).1 ≠ Outcome.returned (some QPClosedErr) := by
  refine ⟨by decide, by decide, by decide, by decide, by decide, by decide, by decide, ?_⟩
  intro C E s wr imm
  unfold PostSendImm
  simp only [NewErrorOrNil, QPClosedErr]
  split_ifs <;> simp

/-- C7: once `Close` has returned success on a queue pair, then after any further
method calls another `Close` returns success, makes no driver call and leaves the
queue pair as it was; and when the driver accepts the destroy of an open queue
pair, `Close` called twice succeeds both times with one `ibv_destroy_qp` call. -/
theorem Close_is_idempotent (C : Verbs) (E : Env) (s : State) (ops : List Op) :
    ((Close E s).1 = Outcome.returned none →
      Close E (run C E (Close E s).2 ops) =
        (Outcome.returned none, run C E (Close E s).2 ops)) ∧
    (∀ h, s.q.qp = some h → E.driver s.calls (DriverCall.ibv_destroy_qp (some h)) = 0 →
      (Close E s).1 = Outcome.returned none ∧
      (Close E (Close E s).2).1 = Outcome.returned none ∧
      (Close E (Close E s).2).2.calls = s.calls ++ [DriverCall.ibv_destroy_qp (some h)]) := by
  constructor
  · intro hclose
    exact Close_closed E _ ((run_q C E ops (Close E s).2).2.2 (Close_success_closed E s hclose))
  · intro h hqp hdrv
    have h1 : Close E s =
        (Outcome.returned none,
          { q := { s.q with qp := none },
            calls := s.calls ++ [DriverCall.ibv_destroy_qp (some h)] }) := by
      simp [Close, hqp, hdrv]
    have h2 := Close_closed E (Close E s).2 (Close_success_closed E s (by rw [h1]))
    refine ⟨by rw [h1], by rw [h2], ?_⟩
    rw [h2, h1]

/-- An accepted `Close` of an open queue pair, a send in between, and a second `Close`. -/
theorem Close_is_idempotent_witness :
    (Close acceptAll sOpen).1 = Outcome.returned none ∧
    Close acceptAll (run verbs_h acceptAll (Close acceptAll sOpen).2 [Op.PostSend (sendReq none)]) =
      (Outcome.returned none,
        run verbs_h acceptAll (Close acceptAll sOpen).2 [Op.PostSend (sendReq none)]) ∧
    sOpen.q.qp = some { handle := 1, qp_num := 17 } ∧
    acceptAll.driver sOpen.calls (DriverCall.ibv_destroy_qp (some { handle := 1, qp_num := 17 }))
      = 0 ∧
    (Close acceptAll sOpen).1 = Outcome.returned none ∧
    (Close acceptAll (Close acceptAll sOpen).2).1 = Outcome.returned none ∧
    (Close acceptAll (Close acceptAll sOpen).2).2.calls =
      sOpen.calls ++ [DriverCall.ibv_destroy_qp (some { handle := 1, qp_num := 17 })] :=
  ⟨by decide,
    (Close_is_idempotent verbs_h acceptAll sOpen [Op.PostSend (sendReq none)]).1 (by decide),
    rfl, rfl,
    (Close_is_idempotent verbs_h acceptAll sOpen [Op.PostSend (sendReq none)]).2
      { handle := 1, qp_num := 17 } rfl rfl⟩

/-! ## The packet sequence number and the port -/

theorem NewQueuePair_some {C : Verbs}
    {ibv_create_qp : Nat → ibv_qp_init_attr → Option ibv_qp × Option GoError} {Uint32 : Nat}
    {ctx : rdmaContext} {pd : protectDomain} {cq : completionQueue} {q : queuePair}
    (h : (NewQueuePair C ibv_create_qp Uint32 ctx pd cq).1 = some q) :
    q.psn = Uint32 &&& 0xffffff ∧ q.port = ctx.Port ∧ q.qp ≠ none ∧
      (NewQueuePair C ibv_create_qp Uint32 ctx pd cq).2 = none := by
  unfold NewQueuePair at h ⊢
  dsimp only at h ⊢
  generalize ibv_create_qp pd.pd _ = r at h ⊢
  rcases r with ⟨_ | qpC, _ | e⟩
  · simp at h
  · simp at h
  · simp only [Option.some.injEq] at h
    subst h
    simp
  · simp only [Option.some.injEq] at h
    subst h
    simp

/-- C8: a queue pair returned by `NewQueuePair` has a PSN below 2^24, whatever the
random source yields, and after any sequence of method calls, whatever their
outcomes, `Psn()` is the value assigned at creation and the port is the one bound
at creation. -/
theorem psn_is_24_bit_and_fixed (C : Verbs)
    (ibv_create_qp : Nat → ibv_qp_init_attr → Option ibv_qp × Option GoError) (Uint32 : Nat)
    (ctx : rdmaContext) (pd : protectDomain) (cq : completionQueue) (q : queuePair)
    (hnew : (NewQueuePair C ibv_create_qp Uint32 ctx pd cq).1 = some q) :
    0 ≤ Psn q ∧ Psn q < 2 ^ 24 ∧
    ∀ (E : Env) (calls : List DriverCall) (ops : List Op),
      Psn (run C E { q := q, calls := calls } ops).q = Psn q ∧
      (run C E { q := q, calls := calls } ops).q.port = q.port ∧
      (run C E { q := q, calls := calls } ops).q.port = ctx.Port := by
  obtain ⟨hpsn, hport, _, _⟩ := NewQueuePair_some hnew
  refine ⟨Nat.zero_le _, ?_, ?_⟩
  · have hle : Uint32 &&& 0xffffff ≤ 0xffffff := Nat.and_le_right
    unfold Psn
    omega
  · intro E calls ops
    obtain ⟨h1, h2, _⟩ := run_q C E ops { q := q, calls := calls }
    exact ⟨h1, h2, h2.trans hport⟩

/-- A queue pair created with every bit of the random value set, then driven
through the handshake, a send, a close and a receive. -/
theorem psn_is_24_bit_and_fixed_witness :
    (NewQueuePair verbs_h createOk 0xffffffff { Port := 1 } { pd := 3 } { cq := 5, cqe := 16 }).1 =
      some { psn := 0xffffff, port := 1, qp := some { handle := 1, qp_num := 17 }, cq := 5 } ∧
    Psn (run verbs_h acceptAll
        { q := { psn := 0xffffff, port := 1, qp := some { handle := 1, qp_num := 17 }, cq := 5 },
          calls := [] }
        [Op.Init, Op.Ready2Receive 0 17 5, Op.Ready2Send, Op.PostSend (sendReq none), Op.Close,
          Op.PostReceive (recvReq none)]).q = 0xffffff :=
  ⟨by decide,
    ((psn_is_24_bit_and_fixed verbs_h createOk 0xffffffff { Port := 1 } { pd := 3 }
      { cq := 5, cqe := 16 }
      { psn := 0xffffff, port := 1, qp := some { handle := 1, qp_num := 17 }, cq := 5 }
      (by decide)).2.2 acceptAll []
      [Op.Init, Op.Ready2Receive 0 17 5, Op.Ready2Send, Op.PostSend (sendReq none), Op.Close,
        Op.PostReceive (recvReq none)]).1⟩

/-! ## The outstanding read/atomic limits -/

/-- C9: the record `Ready2Receive` submits has `max_dest_rd_atomic = 1` and the
record `Ready2Send` submits has `max_rd_atomic = 1`, for every queue pair and every
argument; neither is 0. -/
theorem rd_atomic_limits_are_one (C : Verbs) (E : Env) (s : State)
    (destGid destQpn destPsn : Nat) :
    (∃ attr mask, (Ready2Receive C E s destGid destQpn destPsn).2.calls =
        s.calls ++ [DriverCall.ibv_modify_qp s.q.qp attr mask] ∧
      attr.max_dest_rd_atomic = 1 ∧ attr.max_dest_rd_atomic ≠ 0) ∧
    (∃ attr mask, (Ready2Send C E s).2.calls =
        s.calls ++ [DriverCall.ibv_modify_qp s.q.qp attr mask] ∧
      attr.max_rd_atomic = 1 ∧ attr.max_rd_atomic ≠ 0) :=
  ⟨⟨_, _, rfl, rfl, Nat.succ_ne_zero 0⟩, ⟨_, _, rfl, rfl, Nat.succ_ne_zero 0⟩⟩

/-! ## The immediate value of `PostWriteImm` -/

/-- C10: the immediate value passed to `PostWriteImm` has no effect: two calls
that differ only in it end alike, make the same driver calls and leave the same
work request, and `PostWriteImm` does what `PostWrite` does.  On an open queue pair
with a region attached both build the same descriptor for `ibv_post_send`: opcode
RDMA-write, the signaled flag, one element built from the region, the remote
address and key as supplied, and the immediate-data member it had before the call;
what each hands to the driver is that descriptor or, when the cgo pointer check
stops the call, nothing. -/
theorem PostWriteImm_ignores_the_immediate_value (C : Verbs) (E : Env) (s : State)
    (wr : sendWorkRequest) (remoteAddr rkey imm1 imm2 : Nat) :
    PostWriteImm C E s wr remoteAddr rkey imm1 = PostWriteImm C E s wr remoteAddr rkey imm2 ∧
    PostWriteImm C E s wr remoteAddr rkey imm1 = PostWrite C E s wr remoteAddr rkey ∧
    ∀ m, s.q.qp ≠ none → wr.mr = some m →
      ∃ d, (PostWriteImm C E s wr remoteAddr rkey imm1).2.2.sendWr = d ∧
        (PostWriteImm C E s wr remoteAddr rkey imm2).2.2.sendWr = d ∧
        d.opcode = C.IBV_WR_RDMA_WRITE ∧ d.send_flags = C.IBV_SEND_SIGNALED ∧
        d.sg_list = SgePointer.go (sgeOf m) ∧ d.num_sge = 1 ∧
        d.remoteAddr = remoteAddr ∧ d.rkey = rkey ∧ d.imm_data = wr.sendWr.imm_data ∧
        (PostWriteImm C E s wr remoteAddr rkey imm1).2.1.calls =
          (if E.cgocheck then s.calls else s.calls ++ [DriverCall.ibv_post_send s.q.qp d]) ∧
        (PostWriteImm C E s wr remoteAddr rkey imm2).2.1.calls =
          (if E.cgocheck then s.calls else s.calls ++ [DriverCall.ibv_post_send s.q.qp d]) := by
  refine ⟨rfl, rfl, ?_⟩
  intro m hq hm
  obtain ⟨hsg, hn, hf, ho, ha, hk, hi, hcalls, _⟩ :=
    PostWriteImm_open C E s wr m remoteAddr rkey imm1 hq hm
  exact ⟨_, rfl, rfl, ho, hf, hsg, hn, ha, hk, hi, hcalls, hcalls⟩

/-- Immediate values 1 and 2 on an open queue pair with a region of 64 bytes, the
cgo pointer check off. -/
theorem PostWriteImm_ignores_the_immediate_value_witness :
    sOpen.q.qp ≠ none ∧ (sendReq (some mrSmall)).mr = some mrSmall ∧
    ∃ d, (PostWriteImm verbs_h unchecked sOpen (sendReq (some mrSmall)) 8192 77 1).2.2.sendWr = d ∧
      (PostWriteImm verbs_h unchecked sOpen (sendReq (some mrSmall)) 8192 77 2).2.2.sendWr = d ∧
      d.opcode = verbs_h.IBV_WR_RDMA_WRITE ∧ d.send_flags = verbs_h.IBV_SEND_SIGNALED ∧
      d.sg_list = SgePointer.go (sgeOf mrSmall) ∧ d.num_sge = 1 ∧
      d.remoteAddr = 8192 ∧ d.rkey = 77 ∧
      d.imm_data = (sendReq (some mrSmall)).sendWr.imm_data ∧
      (PostWriteImm verbs_h unchecked sOpen (sendReq (some mrSmall)) 8192 77 1).2.1.calls =
        (if unchecked.cgocheck then sOpen.calls
          else sOpen.calls ++ [DriverCall.ibv_post_send sOpen.q.qp d]) ∧
      (PostWriteImm verbs_h unchecked sOpen (sendReq (some mrSmall)) 8192 77 2).2.1.calls =
        (if unchecked.cgocheck then sOpen.calls
          else sOpen.calls ++ [DriverCall.ibv_post_send sOpen.q.qp d]) :=
  ⟨by decide, rfl,
    (PostWriteImm_ignores_the_immediate_value verbs_h unchecked sOpen (sendReq (some mrSmall))
      8192 77 1 2).2.2 mrSmall (by decide) rfl⟩

end Ibverbs
